import Mathlib

/-!
Shallow embedding of `src/plugin/my-hours.py` (the MyHours faff plugin).

Conventions of the embedding:
* UTC instants are modelled as `Int` seconds since an arbitrary epoch;
  `datetime.timedelta(minutes=5)` becomes the integer `5 * 60`.
* Python's `datetime.datetime.now(...)` is an input of each modelled
  function: a function that reads the clock twice (once at the expiry
  check, once when building the refreshed credential) takes two time
  arguments `now` and `respTime`.
* Network I/O is an input: the HTTP response a call would receive is
  passed as an explicit argument, and the number of calls actually
  issued is recorded in the result.
* `raise`d Python exceptions become `Except.error` carrying the message
  string; the persisted `token.toml` file is an `Option Credential`
  (`none` = absent / unlinked).
* Python string operations (`startswith`, slicing, `lower`, `in`) are
  modelled on `String.data` (lists of characters), matching Python's
  code-point semantics.
-/

namespace MyHours

/-- Python `b.startswith(a)` on character lists: `startsWithL s pat`
is true iff `pat` is an initial segment of `s`. -/
def startsWithL : List Char → List Char → Bool
  | _, [] => true
  | [], _ :: _ => false
  | a :: as, b :: bs => a == b && startsWithL as bs

/-- Occurrence of `pat` as a contiguous sublist of a character list,
mirroring Python's `pat in s`. -/
def hasSubList (pat : List Char) : List Char → Bool
  | [] => pat.isEmpty
  | a :: rest => startsWithL (a :: rest) pat || hasSubList pat rest

/-- Python `pat in s` on strings. -/
def strContains (s pat : String) : Bool := hasSubList pat.data s.data

/-- Python `s.startswith(pat)`. -/
def strStarts (s pat : String) : Bool := startsWithL s.data pat.data

/-- Python slicing `s[n:]` (counting code points). -/
def strDropChars (s : String) (n : Nat) : String := ⟨s.data.drop n⟩

/-- Python `s.lower()` (ASCII-adequate model). -/
def strLower (s : String) : String := ⟨s.data.map Char.toLower⟩

/-- The credential record built by `initialise_auth` / `refresh_if_necessary`
and persisted to `token.toml` (`expires_at` stored as an instant). -/
structure Credential where
  access_token : String
  refresh_token : String
  expires_in : Int
  expires_at : Int
deriving Repr, DecidableEq

/-- Body of a response to `POST /tokens/login` or `POST /tokens/refresh`,
together with its HTTP status. -/
structure TokenResponse where
  status : Nat
  accessToken : String
  refreshToken : String
  expiresIn : Int
deriving Repr, DecidableEq

/-- Result of an operation that may yield a credential, may rewrite or
unlink `token.toml`, and counts the refresh calls it issued. -/
structure RefreshResult where
  cred : Except String Credential
  file : Option Credential
  refreshCalls : Nat
deriving Repr

/-- Result of `initialise_auth`: the credential or the raised error,
plus the resulting `token.toml` state (one login call is always made). -/
structure CredResult where
  cred : Except String Credential
  file : Option Credential
deriving Repr

/-- Model of `initialise_auth` (my-hours.py lines 14-46): POSTs email+password to
the login endpoint; on 200 builds the credential with
`expires_at = now + expiresIn` and persists it; 401 raises
"Invalid credentials..."; anything else raises a generic error.
`t` is the clock reading when the 200 response is processed,
`resp` the login response, `file` the prior `token.toml` state. -/
def initialise_auth (t : Int) (resp : TokenResponse) (file : Option Credential) :
    CredResult :=
  if resp.status = 200 then
    let auth : Credential :=
      { access_token := resp.accessToken
        refresh_token := resp.refreshToken
        expires_in := resp.expiresIn
        expires_at := t + resp.expiresIn }
    { cred := .ok auth, file := some auth }
  else if resp.status = 401 then
    { cred := .error "Invalid credentials. Please check your email and password.", file := file }
  else
    { cred := .error "An error occurred during authentication.", file := file }

/-- Model of `refresh_if_necessary` (my-hours.py lines 48-80): refreshes only when
`now > expires_at - 5 minutes`. On 200 builds the new credential with
`expires_at = respTime + expiresIn` and persists it; on 401 unlinks
`token.toml` and raises "Invalid refresh token..."; any other status
raises a generic error. When no refresh is needed the input credential
is returned unchanged and no call is made. -/
def refresh_if_necessary (now respTime : Int) (resp : TokenResponse)
    (auth : Credential) (file : Option Credential) : RefreshResult :=
  if auth.expires_at - 5 * 60 < now then
    if resp.status = 200 then
      let newAuth : Credential :=
        { access_token := resp.accessToken
          refresh_token := resp.refreshToken
          expires_in := resp.expiresIn
          expires_at := respTime + resp.expiresIn }
      { cred := .ok newAuth, file := some newAuth, refreshCalls := 1 }
    else if resp.status = 401 then
      { cred := .error "Invalid refresh token. You will have to re-authenticate.",
        file := none, refreshCalls := 1 }
    else
      { cred := .error "An error occurred during token refresh.",
        file := file, refreshCalls := 1 }
  else
    { cred := .ok auth, file := file, refreshCalls := 0 }

/-- Outcome of reading and parsing `token.toml` at the top of
`authenticate`: the file may be absent (`FileNotFoundError`), present
but unparseable (`toml.loads` / `datetime.fromisoformat` raising), or
parsed into a credential. -/
inductive FileRead where
  | missing
  | parseError (msg : String)
  | found (auth : Credential)

/-- Result of `authenticate`: the access token or the raised error, the
final `token.toml` state, and how many login / refresh calls were made. -/
structure AuthResult where
  token : Except String String
  file : Option Credential
  loginCalls : Nat
  refreshCalls : Nat
deriving Repr

/-- The second half of `authenticate` (my-hours.py lines 101-111): run
`refresh_if_necessary` on the credential in hand; if it raises an error
whose text contains "Invalid refresh token", fall back to
`initialise_auth`; any other error propagates. -/
def authRefreshStep (auth : Credential) (file : Option Credential) (loginCalls : Nat)
    (now respTime : Int) (refreshResp : TokenResponse)
    (loginTime2 : Int) (loginResp2 : TokenResponse) : AuthResult :=
  let r := refresh_if_necessary now respTime refreshResp auth file
  match r.cred with
  | .ok a => { token := .ok a.access_token, file := r.file,
               loginCalls := loginCalls, refreshCalls := r.refreshCalls }
  | .error e =>
    if strContains e "Invalid refresh token" then
      let li := initialise_auth loginTime2 loginResp2 r.file
      match li.cred with
      | .ok a2 => { token := .ok a2.access_token, file := li.file,
                    loginCalls := loginCalls + 1, refreshCalls := r.refreshCalls }
      | .error e2 => { token := .error e2, file := li.file,
                       loginCalls := loginCalls + 1, refreshCalls := r.refreshCalls }
    else
      { token := .error e, file := r.file,
        loginCalls := loginCalls, refreshCalls := r.refreshCalls }

/-- Model of `authenticate` (my-hours.py lines 82-111): load `token.toml`; only
`FileNotFoundError` falls back to `initialise_auth` (a parse failure
propagates); then refresh-if-necessary with the invalid-refresh-token
recovery of `authRefreshStep`; returns the final access token.
`loginTime`/`loginResp` serve the first (missing-file) login,
`loginTime2`/`loginResp2` the recovery login after a rejected refresh. -/
def authenticate (read : FileRead) (loginTime : Int) (loginResp : TokenResponse)
    (now respTime : Int) (refreshResp : TokenResponse)
    (loginTime2 : Int) (loginResp2 : TokenResponse)
    (file0 : Option Credential) : AuthResult :=
  match read with
  | .parseError msg => { token := .error msg, file := file0, loginCalls := 0, refreshCalls := 0 }
  | .missing =>
    let li := initialise_auth loginTime loginResp file0
    match li.cred with
    | .error e => { token := .error e, file := li.file, loginCalls := 1, refreshCalls := 0 }
    | .ok auth => authRefreshStep auth li.file 1 now respTime refreshResp loginTime2 loginResp2
  | .found auth => authRefreshStep auth file0 0 now respTime refreshResp loginTime2 loginResp2

/-- A timeline item's intent: its display alias and tracker identifiers. -/
structure Intent where
  «alias» : String
  trackers : List String
deriving Repr, DecidableEq

/-- One item of a log/timesheet timeline; `start`/`stop` are the UTC
instants of `item.start` / `item.end` (`end` is a Lean keyword). -/
structure TimelineItem where
  intent : Intent
  start : Int
  stop : Int
deriving Repr, DecidableEq

/-- The host's `Log`: a date, a timezone and a timeline. -/
structure Log where
  date : Int
  timezone : String
  timeline : List TimelineItem
deriving Repr, DecidableEq

/-- Model of `TimesheetMeta`: audience id and submission timestamp. -/
structure TimesheetMeta where
  audience_id : String
  submitted_at : Option Int
deriving Repr, DecidableEq

/-- The host's `Timesheet` as built by `compile_time_sheet`. -/
structure Timesheet where
  actor : String
  date : Int
  compiled : Int
  timezone : String
  timeline : List TimelineItem
  meta : TimesheetMeta
deriving Repr, DecidableEq

/-- The filter of `compile_time_sheet` (my-hours.py lines 148-151):
`False` on an empty tracker list, otherwise `any` tracker starting with
`f'{self.id}:'`. -/
def has_tracker_for_this_source (selfId : String) (session : TimelineItem) : Bool :=
  if session.intent.trackers.isEmpty then false
  else session.intent.trackers.any (fun t => strStarts t (selfId ++ ":"))

/-- Model of `compile_time_sheet` (my-hours.py lines 145-168): filters the log's
timeline to the items relevant to this plugin and always wraps them in a
`Timesheet` (the Python signature is `Timesheet | None` but a sheet is
returned even when the filtered timeline is empty). `selfId` is
`self.id`, `actor` is `self.config.get('actor', '')`, `nowc` the
compilation clock reading. -/
def compile_time_sheet (selfId actor : String) (nowc : Int) (log : Log) :
    Option Timesheet :=
  let timeline := log.timeline.filter (has_tracker_for_this_source selfId)
  some
    { actor := actor
      date := log.date
      compiled := nowc
      timezone := log.timezone
      timeline := timeline
      meta := { audience_id := selfId, submitted_at := none } }

/-- One pre-existing remote MyHours entry as listed by `GET /Logs`. -/
structure RemoteEntry where
  id : Nat
  projectName : String
  note : String
  duration : Int
deriving Repr, DecidableEq

/-- The body POSTed to `/Logs/insertlog` (my-hours.py lines 300-306).
`date` is the calendar day of the item's start (the ISO formatting of
the instants is presentation only and kept as the instants/day index). -/
structure MyhoursLog where
  projectId : String
  note : String
  date : Int
  start : Int
  stop : Int
deriving Repr, DecidableEq

/-- Day index of an instant, standing in for `strftime("%Y-%m-%d")`. -/
def dayOf (t : Int) : Int := Int.fdiv t 86400

/-- Response to `POST /Logs/insertlog`: HTTP status, whether
`response.json()` parses (the `try` body completes), and the parsed
`message` / `validationErrors` fields. -/
structure InsertResponse where
  status : Nat
  jsonOk : Bool
  message : String
  validationErrors : List String
deriving Repr, DecidableEq

/-- How a non-raising `insert_myhours_log` call ended: the entry was
inserted, or skipped as an archived-project rejection. -/
inductive InsertOutcome where
  | inserted
  | skippedArchived
deriving Repr, DecidableEq

/-- The error text scanned for "archived project" (my-hours.py lines
231-234): the lower-cased `message` with each lower-cased stringified
validation error appended after a space. -/
def errText (resp : InsertResponse) : String :=
  resp.validationErrors.foldl (fun acc err => acc ++ " " ++ strLower err)
    (strLower resp.message)

/-- Model of `insert_myhours_log` (my-hours.py lines 205-247): POST the entry; on
a status of exactly 400 whose parsed body's error text contains
"archived project", return (skip) instead of raising; otherwise
`raise_for_status()` raises exactly when the status is >= 400. -/
def insert_myhours_log (resp : InsertResponse) : Except String InsertOutcome :=
  if 400 ≤ resp.status then
    if resp.status = 400 then
      if resp.jsonOk then
        if strContains (errText resp) "archived project" then
          .ok .skippedArchived
        else .error "HTTPError"
      else .error "HTTPError"
    else .error "HTTPError"
  else .ok .inserted

/-- Model of `delete_myhours_log` (my-hours.py lines 249-263): DELETE the entry
and `raise_for_status()`. `status` is the HTTP status of the response. -/
def delete_myhours_log (status : Nat) : Except String Unit :=
  if 400 ≤ status then .error "HTTPError" else .ok ()

/-- One remote call made during submission, in order: a DELETE of an
existing entry or a POST of a new one. -/
inductive Ev where
  | delete (id : Nat)
  | insert (log : MyhoursLog)
deriving Repr, DecidableEq

/-- Whether an event is an insert. -/
def Ev.isInsert : Ev → Bool
  | .insert _ => true
  | .delete _ => false

/-- Trace of a (partial) submission: the remote calls made, and the
error that aborted it, if any. -/
structure RunResult where
  events : List Ev
  error : Option String
deriving Repr, DecidableEq

/-- Model of `vape_myhours_day` (my-hours.py lines 189-203): delete every listed
entry for the day in listing order; `delete_myhours_log` raising aborts
the loop. `day` is the `GET /Logs` listing, `dStatus` the HTTP status
each DELETE would receive. -/
def vape_myhours_day (dStatus : Nat → Nat) : List RemoteEntry → RunResult
  | [] => { events := [], error := none }
  | e :: rest =>
    match delete_myhours_log (dStatus e.id) with
    | .ok _ =>
      let r := vape_myhours_day dStatus rest
      { events := Ev.delete e.id :: r.events, error := r.error }
    | .error msg => { events := [Ev.delete e.id], error := some msg }

/-- Tracker-id extraction of `submit_timesheet` (my-hours.py lines
288-294): strip a literal `element:` namespace when present, else use
the raw string as-is. -/
def extract_tracker (raw : String) : String :=
  if strStarts raw "element:" then strDropChars raw 8 else raw

/-- The `/Logs/insertlog` body built for a timeline item (my-hours.py
lines 300-306), given the already-extracted tracker id. -/
def mkLog (item : TimelineItem) (tracker : String) : MyhoursLog :=
  { projectId := tracker
    note := item.intent.«alias»
    date := dayOf item.start
    start := item.start
    stop := item.stop }

/-- The insert loop of `submit_timesheet` (my-hours.py lines 282-309):
skip items with no trackers, extract the first tracker's project id,
insert; `insert_myhours_log` raising aborts the loop, an archived-
project skip does not. `iResp` is the HTTP response each insert body
would receive. -/
def submit_inserts (iResp : MyhoursLog → InsertResponse) :
    List TimelineItem → RunResult
  | [] => { events := [], error := none }
  | item :: rest =>
    match item.intent.trackers with
    | [] => submit_inserts iResp rest
    | t :: _ =>
      let log := mkLog item (extract_tracker t)
      match insert_myhours_log (iResp log) with
      | .ok _ =>
        let r := submit_inserts iResp rest
        { events := Ev.insert log :: r.events, error := r.error }
      | .error e => { events := [Ev.insert log], error := some e }

/-- Model of `submit_timesheet` (my-hours.py lines 265-309): no-op on an empty
timeline; otherwise wipe the day's existing entries, then insert each
timeline item. -/
def submit_timesheet (ts : Timesheet) (day : List RemoteEntry)
    (dStatus : Nat → Nat) (iResp : MyhoursLog → InsertResponse) : RunResult :=
  if ts.timeline.isEmpty then { events := [], error := none }
  else
    let v := vape_myhours_day dStatus day
    match v.error with
    | some e => { events := v.events, error := some e }
    | none =>
      let ins := submit_inserts iResp ts.timeline
      { events := v.events ++ ins.events, error := ins.error }

/-- The condition under which `insert_myhours_log` skips instead of
raising: status exactly 400, parseable body, and "archived project"
occurring in the combined lower-cased error text. -/
def archived_skip (resp : InsertResponse) : Bool :=
  resp.status == 400 && resp.jsonOk &&
    strContains (errText resp) "archived project"

/-! Concrete sample values used to instantiate hypothesis-bearing
theorems. -/

/-- A sample stored credential expiring at instant 1000. -/
def wCred : Credential := ⟨"acc", "ref", 3600, 1000⟩

/-- A sample successful token response. -/
def wResp200 : TokenResponse := ⟨200, "newAcc", "newRef", 3600⟩

/-- A sample 401 token response. -/
def wResp401 : TokenResponse := ⟨401, "", "", 0⟩

/-- A sample timeline item carrying a namespaced tracker. -/
def wItem : TimelineItem := ⟨⟨"work", ["element:123"]⟩, 0, 3600⟩

/-- A sample one-item timesheet. -/
def wTs : Timesheet := ⟨"me", 0, 0, "UTC", [wItem], ⟨"element", none⟩⟩

/-- A sample timesheet with an empty timeline. -/
def wEmptyTs : Timesheet := ⟨"me", 0, 0, "UTC", [], ⟨"element", none⟩⟩

/-- A sample pre-existing remote entry. -/
def wEntry : RemoteEntry := ⟨7, "proj", "note", 60⟩

/-- Delete statuses: every DELETE succeeds. -/
def wOkStatus : Nat → Nat := fun _ => 200

/-- Insert responses: every POST succeeds. -/
def wOkInsert : MyhoursLog → InsertResponse := fun _ => ⟨200, true, "", []⟩

/-- Insert responses: every POST is rejected as an archived project. -/
def wArchivedInsert : MyhoursLog → InsertResponse :=
  fun _ => ⟨400, true, "Cannot log time to an Archived Project", []⟩

end MyHours

namespace MyHours

/-- Claim C3: for every credential whose `expires_at` satisfies
`now < expires_at - 5 minutes`, `refresh_if_necessary` makes zero
network calls and returns its input credential unchanged. -/
theorem refresh_not_needed (now respTime : Int) (resp : TokenResponse)
    (auth : Credential) (file : Option Credential)
    (hfar : now < auth.expires_at - 5 * 60) :
    refresh_if_necessary now respTime resp auth file =
      { cred := .ok auth, file := file, refreshCalls := 0 } := by
  unfold refresh_if_necessary
  rw [if_neg (by omega)]

/-- Witness for `refresh_not_needed` at a concrete credential far from
expiry. -/
theorem refresh_not_needed_witness :
    ((0 : Int) < wCred.expires_at - 5 * 60) ∧
    refresh_if_necessary 0 0 wResp200 wCred none =
      { cred := .ok wCred, file := none, refreshCalls := 0 } :=
  ⟨by decide, refresh_not_needed 0 0 wResp200 wCred none (by decide)⟩

/-- Claim C2 counterexample: at the boundary `now = expires_at - 5 min`
(where the claim's premise `now ≥ expires_at - 5 min` holds) the code
makes zero refresh calls, not one; and a successful refresh whose
`expiresIn` is small yields a strictly *earlier* `expires_at` than the
input, contradicting the claimed strict increase. -/
theorem refresh_boundary_counterexample :
    ((0 : Int) ≥ (⟨"at", "rt", 3600, 300⟩ : Credential).expires_at - 5 * 60 ∧
      (refresh_if_necessary 0 0 ⟨200, "n", "n", 3600⟩
          ⟨"at", "rt", 3600, 300⟩ none).refreshCalls = 0) ∧
    ((0 : Int) ≥ (⟨"at", "rt", 3600, 240⟩ : Credential).expires_at - 5 * 60 ∧
      (refresh_if_necessary 0 0 ⟨200, "n2", "r2", 60⟩
          ⟨"at", "rt", 3600, 240⟩ none).cred = .ok ⟨"n2", "r2", 60, 60⟩ ∧
      (60 : Int) < (⟨"at", "rt", 3600, 240⟩ : Credential).expires_at) :=
  ⟨⟨by decide, rfl⟩, ⟨by decide, rfl, by decide⟩⟩

/-- Claim C2 (amended): for every credential with
`now > expires_at - 5 minutes` (strict, matching the code), exactly one
refresh call is made; on a 200 response the returned credential has
`expires_at = respTime + expiresIn`, which is strictly later than the
input's whenever the clock does not go backwards and the granted
`expiresIn` is at least the 5-minute margin. -/
theorem refresh_when_near_expiry (now respTime : Int) (resp : TokenResponse)
    (auth : Credential) (file : Option Credential)
    (hnear : auth.expires_at - 5 * 60 < now) :
    (refresh_if_necessary now respTime resp auth file).refreshCalls = 1 ∧
    (resp.status = 200 →
      (refresh_if_necessary now respTime resp auth file).cred =
        .ok ⟨resp.accessToken, resp.refreshToken, resp.expiresIn,
          respTime + resp.expiresIn⟩ ∧
      (now ≤ respTime → 5 * 60 ≤ resp.expiresIn →
        auth.expires_at < respTime + resp.expiresIn)) := by
  unfold refresh_if_necessary
  rw [if_pos hnear]
  refine ⟨?_, fun h200 => ⟨?_, fun hmono hgrant => by omega⟩⟩
  · split
    · rfl
    · split <;> rfl
  · rw [if_pos h200]

/-- Witness for `refresh_when_near_expiry` at a concrete near-expiry
credential. -/
theorem refresh_when_near_expiry_witness :
    (wCred.expires_at - 5 * 60 < (900 : Int)) ∧
    ((refresh_if_necessary 900 900 wResp200 wCred none).refreshCalls = 1 ∧
    (wResp200.status = 200 →
      (refresh_if_necessary 900 900 wResp200 wCred none).cred =
        .ok ⟨wResp200.accessToken, wResp200.refreshToken, wResp200.expiresIn,
          900 + wResp200.expiresIn⟩ ∧
      ((900 : Int) ≤ 900 → 5 * 60 ≤ wResp200.expiresIn →
        wCred.expires_at < 900 + wResp200.expiresIn))) :=
  ⟨by decide, refresh_when_near_expiry 900 900 wResp200 wCred none (by decide)⟩

/-- Claim C4: a 401 on refresh deletes the persisted credential and
raises "Invalid refresh token..."; `authenticate` catches exactly that
error and performs a fresh login (`initialise_auth`) instead of another
refresh, while any other refresh error propagates unchanged. -/
theorem refresh_401_recovery (auth : Credential) (loginTime : Int)
    (loginResp : TokenResponse) (now respTime : Int) (refreshResp : TokenResponse)
    (loginTime2 : Int) (loginResp2 : TokenResponse) (file : Option Credential)
    (hnear : auth.expires_at - 5 * 60 < now) :
    (refreshResp.status = 401 →
      (refresh_if_necessary now respTime refreshResp auth file).file = none ∧
      (refresh_if_necessary now respTime refreshResp auth file).cred =
        .error "Invalid refresh token. You will have to re-authenticate." ∧
      (authenticate (.found auth) loginTime loginResp now respTime refreshResp
          loginTime2 loginResp2 file).loginCalls = 1 ∧
      (authenticate (.found auth) loginTime loginResp now respTime refreshResp
          loginTime2 loginResp2 file).refreshCalls = 1 ∧
      (loginResp2.status = 200 →
        (authenticate (.found auth) loginTime loginResp now respTime refreshResp
            loginTime2 loginResp2 file).token = .ok loginResp2.accessToken ∧
        (authenticate (.found auth) loginTime loginResp now respTime refreshResp
            loginTime2 loginResp2 file).file =
          some ⟨loginResp2.accessToken, loginResp2.refreshToken,
            loginResp2.expiresIn, loginTime2 + loginResp2.expiresIn⟩)) ∧
    (refreshResp.status ≠ 200 → refreshResp.status ≠ 401 →
      authenticate (.found auth) loginTime loginResp now respTime refreshResp
          loginTime2 loginResp2 file =
        { token := .error "An error occurred during token refresh.",
          file := file, loginCalls := 0, refreshCalls := 1 }) := by
  have hsub : strContains
      "Invalid refresh token. You will have to re-authenticate."
      "Invalid refresh token" = true := by decide
  have hnsub : strContains "An error occurred during token refresh."
      "Invalid refresh token" = false := by decide
  constructor
  · intro h401
    have hr : refresh_if_necessary now respTime refreshResp auth file =
        { cred := .error "Invalid refresh token. You will have to re-authenticate.",
          file := none, refreshCalls := 1 } := by
      unfold refresh_if_necessary
      rw [if_pos hnear, if_neg (by simp [h401]), if_pos h401]
    refine ⟨by rw [hr], by rw [hr], ?_, ?_, ?_⟩
    · simp only [authenticate, authRefreshStep, hr, hsub, if_true]
      cases hli : (initialise_auth loginTime2 loginResp2 none).cred <;> simp [hli]
    · simp only [authenticate, authRefreshStep, hr, hsub, if_true]
      cases hli : (initialise_auth loginTime2 loginResp2 none).cred <;> simp [hli]
    · intro h200
      have hli : initialise_auth loginTime2 loginResp2 none =
          { cred := .ok ⟨loginResp2.accessToken, loginResp2.refreshToken,
              loginResp2.expiresIn, loginTime2 + loginResp2.expiresIn⟩,
            file := some ⟨loginResp2.accessToken, loginResp2.refreshToken,
              loginResp2.expiresIn, loginTime2 + loginResp2.expiresIn⟩ } := by
        unfold initialise_auth
        rw [if_pos h200]
      constructor <;> simp only [authenticate, authRefreshStep, hr, hsub, if_true, hli]
  · intro h200 h401
    have hr : refresh_if_necessary now respTime refreshResp auth file =
        { cred := .error "An error occurred during token refresh.",
          file := file, refreshCalls := 1 } := by
      unfold refresh_if_necessary
      rw [if_pos hnear, if_neg h200, if_neg h401]
    simp only [authenticate, authRefreshStep, hr, hnsub]
    rfl

/-- Witness for `refresh_401_recovery`: a concrete near-expiry
credential whose refresh is rejected with 401 and whose recovery login
succeeds. -/
theorem refresh_401_recovery_witness :
    (wCred.expires_at - 5 * 60 < (900 : Int)) ∧
    ((wResp401.status = 401 →
      (refresh_if_necessary 900 900 wResp401 wCred (some wCred)).file = none ∧
      (refresh_if_necessary 900 900 wResp401 wCred (some wCred)).cred =
        .error "Invalid refresh token. You will have to re-authenticate." ∧
      (authenticate (.found wCred) 0 wResp200 900 900 wResp401
          950 wResp200 (some wCred)).loginCalls = 1 ∧
      (authenticate (.found wCred) 0 wResp200 900 900 wResp401
          950 wResp200 (some wCred)).refreshCalls = 1 ∧
      (wResp200.status = 200 →
        (authenticate (.found wCred) 0 wResp200 900 900 wResp401
            950 wResp200 (some wCred)).token = .ok wResp200.accessToken ∧
        (authenticate (.found wCred) 0 wResp200 900 900 wResp401
            950 wResp200 (some wCred)).file =
          some ⟨wResp200.accessToken, wResp200.refreshToken,
            wResp200.expiresIn, 950 + wResp200.expiresIn⟩)) ∧
    (wResp401.status ≠ 200 → wResp401.status ≠ 401 →
      authenticate (.found wCred) 0 wResp200 900 900 wResp401
          950 wResp200 (some wCred) =
        { token := .error "An error occurred during token refresh.",
          file := some wCred, loginCalls := 0, refreshCalls := 1 })) :=
  ⟨by decide,
    refresh_401_recovery wCred 0 wResp200 900 900 wResp401 950 wResp200
      (some wCred) (by decide)⟩

/-- Claim C9: every credential produced by a successful login or refresh
has `expires_at` equal to the issuance-time clock reading plus
`expires_in` seconds; the no-refresh path and the load path return the
stored `expires_at` unchanged (never recomputed). -/
theorem expires_at_issuance (tLogin now respTime : Int)
    (loginResp refreshResp : TokenResponse) (auth : Credential)
    (file : Option Credential) :
    (loginResp.status = 200 →
      initialise_auth tLogin loginResp file =
        { cred := .ok ⟨loginResp.accessToken, loginResp.refreshToken,
            loginResp.expiresIn, tLogin + loginResp.expiresIn⟩,
          file := some ⟨loginResp.accessToken, loginResp.refreshToken,
            loginResp.expiresIn, tLogin + loginResp.expiresIn⟩ }) ∧
    (refreshResp.status = 200 → auth.expires_at - 5 * 60 < now →
      (refresh_if_necessary now respTime refreshResp auth file).cred =
        .ok ⟨refreshResp.accessToken, refreshResp.refreshToken,
          refreshResp.expiresIn, respTime + refreshResp.expiresIn⟩) ∧
    (¬ (auth.expires_at - 5 * 60 < now) →
      refresh_if_necessary now respTime refreshResp auth file =
        { cred := .ok auth, file := file, refreshCalls := 0 } ∧
      (authenticate (.found auth) tLogin loginResp now respTime refreshResp
          tLogin loginResp file).token = .ok auth.access_token) := by
  refine ⟨fun h200 => ?_, fun h200 hnear => ?_, fun hfar => ⟨?_, ?_⟩⟩
  · unfold initialise_auth
    rw [if_pos h200]
  · unfold refresh_if_necessary
    rw [if_pos hnear, if_pos h200]
  · unfold refresh_if_necessary
    rw [if_neg hfar]
  · have hr : refresh_if_necessary now respTime refreshResp auth file =
        { cred := .ok auth, file := file, refreshCalls := 0 } := by
      unfold refresh_if_necessary
      rw [if_neg hfar]
    simp only [authenticate, authRefreshStep, hr]

/-- Witness for `expires_at_issuance` at concrete responses and a
credential far from expiry. -/
theorem expires_at_issuance_witness :
    (wResp200.status = 200 →
      initialise_auth 50 wResp200 none =
        { cred := .ok ⟨wResp200.accessToken, wResp200.refreshToken,
            wResp200.expiresIn, 50 + wResp200.expiresIn⟩,
          file := some ⟨wResp200.accessToken, wResp200.refreshToken,
            wResp200.expiresIn, 50 + wResp200.expiresIn⟩ }) ∧
    (wResp200.status = 200 → wCred.expires_at - 5 * 60 < (900 : Int) →
      (refresh_if_necessary 900 900 wResp200 wCred none).cred =
        .ok ⟨wResp200.accessToken, wResp200.refreshToken,
          wResp200.expiresIn, 900 + wResp200.expiresIn⟩) ∧
    (¬ (wCred.expires_at - 5 * 60 < (0 : Int)) →
      refresh_if_necessary 0 900 wResp200 wCred none =
        { cred := .ok wCred, file := none, refreshCalls := 0 } ∧
      (authenticate (.found wCred) 50 wResp200 0 900 wResp200
          50 wResp200 none).token = .ok wCred.access_token) := by
  refine ⟨fun h => (expires_at_issuance 50 0 900 wResp200 wResp200 wCred none).1 h,
    fun h hnear => ?_, fun hfar => (expires_at_issuance 50 0 900 wResp200 wResp200 wCred none).2.2 hfar⟩
  exact (expires_at_issuance 50 900 900 wResp200 wResp200 wCred none).2.1 h hnear

/-- Helper: `authRefreshStep` never decreases the login-call count: whichever
branch of the refresh fallback is taken, at least the inherited logins
are reported. -/
theorem authRefreshStep_loginCalls_le (auth : Credential) (file : Option Credential)
    (lc : Nat) (now respTime : Int) (refreshResp : TokenResponse)
    (loginTime2 : Int) (loginResp2 : TokenResponse) :
    lc ≤ (authRefreshStep auth file lc now respTime refreshResp
      loginTime2 loginResp2).loginCalls := by
  cases hc : (refresh_if_necessary now respTime refreshResp auth file).cred with
  | ok a => simp [authRefreshStep, hc]
  | error e =>
    simp only [authRefreshStep, hc]
    split
    · cases hli : (initialise_auth loginTime2 loginResp2
          (refresh_if_necessary now respTime refreshResp auth file).file).cred <;>
        simp [hli, Nat.le_succ]
    · simp

/-- Claim C10: `authenticate` falls back to initial login only when the
credential file is absent; a present-but-unparseable file propagates the
parse error without re-authenticating, while a missing file performs at
least one login call. -/
theorem authenticate_parse_strictness (msg : String) (loginTime : Int)
    (loginResp : TokenResponse) (now respTime : Int) (refreshResp : TokenResponse)
    (loginTime2 : Int) (loginResp2 : TokenResponse) (file : Option Credential) :
    authenticate (.parseError msg) loginTime loginResp now respTime refreshResp
        loginTime2 loginResp2 file =
      { token := .error msg, file := file, loginCalls := 0, refreshCalls := 0 } ∧
    1 ≤ (authenticate .missing loginTime loginResp now respTime refreshResp
        loginTime2 loginResp2 file).loginCalls := by
  constructor
  · rfl
  · cases hli : (initialise_auth loginTime loginResp file).cred with
    | error e => simp [authenticate, hli]
    | ok a =>
      simp only [authenticate, hli]
      exact authRefreshStep_loginCalls_le _ _ _ _ _ _ _ _

/-- Claim C6: for every timesheet whose timeline is empty,
`submit_timesheet` returns without performing any remote delete or
insert call. -/
theorem submit_empty_timesheet (ts : Timesheet) (day : List RemoteEntry)
    (dStatus : Nat → Nat) (iResp : MyhoursLog → InsertResponse)
    (h : ts.timeline = []) :
    submit_timesheet ts day dStatus iResp = { events := [], error := none } := by
  unfold submit_timesheet
  simp [h]

/-- Witness for `submit_empty_timesheet`: an empty timesheet against a
day that does have a pre-existing remote entry. -/
theorem submit_empty_timesheet_witness :
    wEmptyTs.timeline = [] ∧
    submit_timesheet wEmptyTs [wEntry] wOkStatus wOkInsert =
      { events := [], error := none } :=
  ⟨rfl, submit_empty_timesheet wEmptyTs [wEntry] wOkStatus wOkInsert rfl⟩

/-- The first event of the insert loop on an item with at least one
tracker is the insert of that item's log, whether or not the insert
call succeeds. -/
theorem submit_inserts_cons_head (iResp : MyhoursLog → InsertResponse)
    (item : TimelineItem) (t : String) (tks : List String)
    (rest : List TimelineItem) (htr : item.intent.trackers = t :: tks) :
    (submit_inserts iResp (item :: rest)).events.head? =
      some (Ev.insert (mkLog item (extract_tracker t))) := by
  simp only [submit_inserts, htr]
  cases hI : insert_myhours_log (iResp (mkLog item (extract_tracker t))) <;>
    simp [hI]

/-- Claim C7: `submit_timesheet` derives the remote project id from the
item's first tracker by stripping the `element:` namespace when present
and using the raw string unchanged otherwise; in particular
`"element:123"` yields `"123"` and `"123"` yields `"123"`. -/
theorem tracker_extraction_first (ts : Timesheet) (item : TimelineItem)
    (t : String) (tks : List String) (rest : List TimelineItem)
    (dStatus : Nat → Nat) (iResp : MyhoursLog → InsertResponse)
    (hts : ts.timeline = item :: rest) (htr : item.intent.trackers = t :: tks) :
    (submit_timesheet ts [] dStatus iResp).events.head? =
      some (Ev.insert (mkLog item (extract_tracker t))) ∧
    extract_tracker "element:123" = "123" ∧
    extract_tracker "123" = "123" := by
  refine ⟨?_, by decide, by decide⟩
  have hv : vape_myhours_day dStatus ([] : List RemoteEntry) =
      { events := [], error := none } := rfl
  simp only [submit_timesheet, hts, hv, List.isEmpty_cons, Bool.false_eq_true,
    if_false, List.nil_append]
  exact submit_inserts_cons_head iResp item t tks rest htr

/-- Witness for `tracker_extraction_first` on a concrete one-item
timesheet whose tracker is `element:123`. -/
theorem tracker_extraction_first_witness :
    (wTs.timeline = wItem :: [] ∧ wItem.intent.trackers = "element:123" :: []) ∧
    ((submit_timesheet wTs [] wOkStatus wOkInsert).events.head? =
      some (Ev.insert (mkLog wItem (extract_tracker "element:123"))) ∧
    extract_tracker "element:123" = "123" ∧
    extract_tracker "123" = "123") :=
  ⟨⟨rfl, rfl⟩,
    tracker_extraction_first wTs wItem "element:123" [] [] wOkStatus wOkInsert
      rfl rfl⟩

/-- Helper: `insert_myhours_log` raises exactly on a status of 400 or above that
is not an archived-project 400. -/
theorem insert_error_iff (resp : InsertResponse) :
    (∃ e, insert_myhours_log resp = .error e) ↔
      (400 ≤ resp.status ∧ archived_skip resp = false) := by
  unfold insert_myhours_log
  split_ifs with h4 h400 hj hs
  · simp [archived_skip, h4, h400, hj, hs]
  · simp [archived_skip, h4, h400, hj, hs]
  · simp [archived_skip, h4, h400, hj]
  · have hne : (resp.status == 400) = false := by
      simp [h400]
    simp [archived_skip, h4, hne]
  · have hne : resp.status ≠ 400 := by omega
    simp [archived_skip, h4, hne]

/-- Helper: `insert_myhours_log` reports an archived-project skip exactly when
`archived_skip` holds of the response. -/
theorem insert_skip_iff (resp : InsertResponse) :
    insert_myhours_log resp = .ok .skippedArchived ↔
      archived_skip resp = true := by
  unfold insert_myhours_log
  split_ifs with h4 h400 hj hs
  · simp [archived_skip, h400, hj, hs]
  · simp [archived_skip, h400, hj, hs]
  · simp [archived_skip, h400, hj]
  · have hne : (resp.status == 400) = false := by
      simp [h400]
    simp [archived_skip, hne]
  · have hne : resp.status ≠ 400 := by omega
    simp [archived_skip, hne]

/-- Claim C1 counterexample: a 404 response — a 400-class rejection —
whose message contains "archived project" still raises, so the
archived-project tolerance does not extend to the whole 400 class. -/
theorem insert_404_archived_raises :
    ((400 : Nat) ≤ 404 ∧ (404 : Nat) < 500 ∧
      strContains (errText ⟨404, true, "archived project", []⟩)
        "archived project" = true) ∧
    insert_myhours_log ⟨404, true, "archived project", []⟩ =
      .error "HTTPError" :=
  ⟨⟨by decide, by decide, by decide⟩, rfl⟩

/-- Claim C1 (amended): `insert_myhours_log` raises exactly when the
insert is rejected (status ≥ 400), except that a rejection with status
exactly 400 whose parsed error text (message plus validation errors,
case-insensitively) contains "archived project" is skipped without
raising, and the insert loop then continues with the remaining items. -/
theorem insert_archived_skip_nonfatal (resp : InsertResponse)
    (item : TimelineItem) (t : String) (tks : List String)
    (rest : List TimelineItem) (iResp : MyhoursLog → InsertResponse)
    (htr : item.intent.trackers = t :: tks)
    (hskip : archived_skip (iResp (mkLog item (extract_tracker t))) = true) :
    ((∃ e, insert_myhours_log resp = .error e) ↔
      (400 ≤ resp.status ∧ archived_skip resp = false)) ∧
    (insert_myhours_log resp = .ok .skippedArchived ↔
      archived_skip resp = true) ∧
    submit_inserts iResp (item :: rest) =
      { events := Ev.insert (mkLog item (extract_tracker t)) ::
          (submit_inserts iResp rest).events,
        error := (submit_inserts iResp rest).error } := by
  refine ⟨insert_error_iff resp, insert_skip_iff resp, ?_⟩
  have hI : insert_myhours_log (iResp (mkLog item (extract_tracker t))) =
      .ok .skippedArchived := (insert_skip_iff _).mpr hskip
  simp only [submit_inserts, htr, hI]

/-- Witness for `insert_archived_skip_nonfatal`: a concrete 500
rejection (raises) against a concrete archived-project 400 (skipped,
loop continues). -/
theorem insert_archived_skip_nonfatal_witness :
    (wItem.intent.trackers = "element:123" :: [] ∧
      archived_skip (wArchivedInsert (mkLog wItem
        (extract_tracker "element:123"))) = true) ∧
    (((∃ e, insert_myhours_log ⟨500, false, "", []⟩ = .error e) ↔
      (400 ≤ (⟨500, false, "", []⟩ : InsertResponse).status ∧
        archived_skip ⟨500, false, "", []⟩ = false)) ∧
    (insert_myhours_log ⟨500, false, "", []⟩ = .ok .skippedArchived ↔
      archived_skip ⟨500, false, "", []⟩ = true) ∧
    submit_inserts wArchivedInsert (wItem :: []) =
      { events := Ev.insert (mkLog wItem (extract_tracker "element:123")) ::
          (submit_inserts wArchivedInsert []).events,
        error := (submit_inserts wArchivedInsert []).error }) :=
  ⟨⟨rfl, by decide⟩,
    insert_archived_skip_nonfatal ⟨500, false, "", []⟩ wItem "element:123" []
      [] wArchivedInsert rfl (by decide)⟩

/-- Claim C8 counterexample: an item whose *first* tracker is not
namespaced to this integration but whose second is, is still included
by `compile_time_sheet`, so relevance is not decided by the first
tracker alone. -/
theorem compile_any_tracker_counterexample :
    (Option.map Timesheet.timeline
        (compile_time_sheet "element" "me" 0
          ⟨0, "UTC", [⟨⟨"w", ["other:1", "element:2"]⟩, 0, 1⟩]⟩) =
      some [⟨⟨"w", ["other:1", "element:2"]⟩, 0, 1⟩]) ∧
    ((⟨⟨"w", ["other:1", "element:2"]⟩, 0, 1⟩ : TimelineItem).intent.trackers.head? =
      some "other:1") ∧
    strStarts "other:1" ("element" ++ ":") = false :=
  ⟨rfl, rfl, by decide⟩

/-- Claim C8 (amended): `compile_time_sheet` always returns a Timesheet
(even when the filtered timeline is empty) whose timeline contains
exactly those items of the log's timeline carrying at least one tracker
namespaced `selfId:`. -/
theorem compile_filters_by_any_tracker (selfId actor : String) (nowc : Int)
    (log : Log) :
    ∃ ts, compile_time_sheet selfId actor nowc log = some ts ∧
      ts.timeline = log.timeline.filter
        (fun s => s.intent.trackers.any (fun t => strStarts t (selfId ++ ":"))) ∧
      (∀ x, x ∈ ts.timeline ↔
        (x ∈ log.timeline ∧
          ∃ t ∈ x.intent.trackers, strStarts t (selfId ++ ":") = true)) ∧
      ts.date = log.date ∧ ts.meta.submitted_at = none := by
  have hfun : has_tracker_for_this_source selfId =
      (fun s => s.intent.trackers.any (fun t => strStarts t (selfId ++ ":"))) := by
    funext s
    unfold has_tracker_for_this_source
    cases h : s.intent.trackers <;> simp [h]
  refine ⟨_, rfl, ?_, ?_, rfl, rfl⟩
  · show log.timeline.filter (has_tracker_for_this_source selfId) = _
    rw [hfun]
  · intro x
    show x ∈ log.timeline.filter (has_tracker_for_this_source selfId) ↔ _
    rw [hfun]
    simp [List.mem_filter, List.any_eq_true]

/-- When every DELETE for the day succeeds, `vape_myhours_day` issues
exactly one delete per listed entry, in listing order, and no error. -/
theorem vape_all_ok (dStatus : Nat → Nat) (day : List RemoteEntry)
    (h : ∀ e ∈ day, dStatus e.id < 400) :
    vape_myhours_day dStatus day =
      { events := day.map (fun e => Ev.delete e.id), error := none } := by
  induction day with
  | nil => rfl
  | cons e rest ih =>
    have hd : delete_myhours_log (dStatus e.id) = .ok () := by
      unfold delete_myhours_log
      rw [if_neg (Nat.not_le.mpr (h e (List.mem_cons_self e rest)))]
    simp only [vape_myhours_day, hd, List.map_cons]
    rw [ih (fun x hx => h x (List.mem_cons_of_mem e hx))]

/-- When the first failing DELETE is `bad`, `vape_myhours_day` performs
the deletes up to and including `bad` and stops with the raised error,
never reaching the entries after it. -/
theorem vape_fails (dStatus : Nat → Nat) (bad : RemoteEntry)
    (post : List RemoteEntry) (hbad : 400 ≤ dStatus bad.id)
    (pre : List RemoteEntry) :
    (∀ e ∈ pre, dStatus e.id < 400) →
    vape_myhours_day dStatus (pre ++ bad :: post) =
      { events := pre.map (fun e => Ev.delete e.id) ++ [Ev.delete bad.id],
        error := some "HTTPError" } := by
  induction pre with
  | nil =>
    intro _
    have hd : delete_myhours_log (dStatus bad.id) = .error "HTTPError" := by
      unfold delete_myhours_log
      rw [if_pos hbad]
    simp [vape_myhours_day, hd]
  | cons e rest ih =>
    intro hpre
    have hd : delete_myhours_log (dStatus e.id) = .ok () := by
      unfold delete_myhours_log
      rw [if_neg (Nat.not_le.mpr (hpre e (List.mem_cons_self e rest)))]
    simp only [List.cons_append, vape_myhours_day, hd, List.map_cons,
      List.append_eq]
    rw [ih (fun x hx => hpre x (List.mem_cons_of_mem e hx))]

/-- Every event produced by the insert loop is an insert (the loop never
deletes anything). -/
theorem submit_inserts_all_inserts (iResp : MyhoursLog → InsertResponse)
    (items : List TimelineItem) :
    ∀ ev ∈ (submit_inserts iResp items).events, ev.isInsert = true := by
  induction items with
  | nil =>
    intro ev hev
    simp [submit_inserts] at hev
  | cons item rest ih =>
    intro ev hev
    cases htr : item.intent.trackers with
    | nil =>
      simp only [submit_inserts, htr] at hev
      exact ih ev hev
    | cons t tks =>
      simp only [submit_inserts, htr] at hev
      cases hI : insert_myhours_log (iResp (mkLog item (extract_tracker t))) with
      | ok o =>
        rw [hI] at hev
        rcases List.mem_cons.mp hev with rfl | hmem
        · rfl
        · exact ih ev hmem
      | error e =>
        rw [hI] at hev
        rcases List.mem_cons.mp hev with rfl | hmem
        · rfl
        · simp at hmem

/-- Claim C5: for a non-empty timeline, `submit_timesheet` issues
exactly one delete per pre-existing remote entry, in listing order, and
every delete happens before any insert (the insert loop only ever
inserts); a deletion failure aborts the submission with the deletes
made so far and no insert attempted. -/
theorem submit_delete_then_insert (ts : Timesheet) (day : List RemoteEntry)
    (dStatus : Nat → Nat) (iResp : MyhoursLog → InsertResponse)
    (h : ts.timeline ≠ []) :
    ((∀ e ∈ day, dStatus e.id < 400) →
      submit_timesheet ts day dStatus iResp =
        { events := day.map (fun e => Ev.delete e.id) ++
            (submit_inserts iResp ts.timeline).events,
          error := (submit_inserts iResp ts.timeline).error }) ∧
    (∀ ev ∈ (submit_inserts iResp ts.timeline).events, ev.isInsert = true) ∧
    (∀ pre bad post, day = pre ++ bad :: post →
      (∀ e ∈ pre, dStatus e.id < 400) → 400 ≤ dStatus bad.id →
      submit_timesheet ts day dStatus iResp =
        { events := pre.map (fun e => Ev.delete e.id) ++ [Ev.delete bad.id],
          error := some "HTTPError" }) := by
  have hne : ts.timeline.isEmpty = false := by
    cases hl : ts.timeline with
    | nil => exact absurd hl h
    | cons a l => rfl
  refine ⟨fun hok => ?_, submit_inserts_all_inserts iResp ts.timeline,
    fun pre bad post hday hpre hbad => ?_⟩
  · have hv := vape_all_ok dStatus day hok
    simp [submit_timesheet, hne, hv]
  · subst hday
    have hv := vape_fails dStatus bad post hbad pre hpre
    simp [submit_timesheet, hne, hv]

/-- Witness for `submit_delete_then_insert`: a one-item timesheet
against a day holding one pre-existing entry, with every call
succeeding. -/
theorem submit_delete_then_insert_witness :
    wTs.timeline ≠ [] ∧
    (((∀ e ∈ [wEntry], wOkStatus e.id < 400) →
      submit_timesheet wTs [wEntry] wOkStatus wOkInsert =
        { events := [wEntry].map (fun e => Ev.delete e.id) ++
            (submit_inserts wOkInsert wTs.timeline).events,
          error := (submit_inserts wOkInsert wTs.timeline).error }) ∧
    (∀ ev ∈ (submit_inserts wOkInsert wTs.timeline).events,
      ev.isInsert = true) ∧
    (∀ pre bad post, [wEntry] = pre ++ bad :: post →
      (∀ e ∈ pre, wOkStatus e.id < 400) → 400 ≤ wOkStatus bad.id →
      submit_timesheet wTs [wEntry] wOkStatus wOkInsert =
        { events := pre.map (fun e => Ev.delete e.id) ++ [Ev.delete bad.id],
          error := some "HTTPError" })) :=
  ⟨by decide,
    submit_delete_then_insert wTs [wEntry] wOkStatus wOkInsert (by decide)⟩

end MyHours
